import Mathlib

/-!
Shallow embedding of the track admissibility and ranking engine of
app/services/track_selector.py, together with proofs of the specified
properties.

Modelling conventions:
* Python dicts are insertion-ordered association lists; insertion of an
  existing key keeps its position and replaces the value.
* A raw inventory record (a dict of numeric attributes) is modelled by the
  structure TrackInfo; an attribute read from the dict is an Option Int
  (none models an absent key or a None value; the inventory loader of
  app/data_loader.py only ever stores ints, with functional capacity
  possibly None).
* Python floats are modelled by PyFloat: a rational together with the
  IEEE special values +inf, -inf and nan produced by math.inf and by
  multiplication, with Python's comparison semantics (nan incomparable).
* Python's str helpers (strip/upper/split/isdigit/int) are reimplemented
  over the character list of the string so that every definition can be
  evaluated by the kernel; they agree with CPython on ASCII data.
* list.sort(key=...) is a stable ascending sort; it is modelled by a
  stable insertion sort driven by the strict tuple comparison that
  Python's sort performs on the key tuples.
* A raised ValueError is modelled by the error branch of Except.
-/

/-- Splitter state machine over characters: tokens of non-whitespace runs. -/
def splitWsAux (cs : List Char) (acc : List Char) : List (List Char) :=
  match cs with
  | [] => if acc.isEmpty then [] else [acc.reverse]
  | c :: rest =>
    if c.isWhitespace then
      if acc.isEmpty then splitWsAux rest [] else acc.reverse :: splitWsAux rest []
    else splitWsAux rest (c :: acc)

/-- Python str.split() with no separator: whitespace runs delimit tokens. -/
def splitWs (s : String) : List String :=
  (splitWsAux s.data []).map List.asString

/-- Python str.upper() (ASCII behaviour). -/
def pyUpper (s : String) : String :=
  (s.data.map Char.toUpper).asString

/-- Python str.strip(): remove leading and trailing whitespace. -/
def pyStrip (s : String) : String :=
  (((s.data.dropWhile Char.isWhitespace).reverse.dropWhile Char.isWhitespace).reverse).asString

/-- Decimal-digit test: non-empty and all ASCII decimal digits; exactly the
strings Python int() accepts in the modelled alphabet. Python str.isdigit()
is the wider pyIsDigitStr below, which is also true on digit-typed
non-decimal characters that int() rejects. -/
def isDigitStr (s : String) : Bool :=
  !s.data.isEmpty && s.data.all Char.isDigit

/-- Decimal value of a digit string, as computed by Python int(). -/
def pyIntOfDigits (s : String) : Int :=
  Int.ofNat (s.data.foldl (fun acc c => 10 * acc + (c.toNat - 48)) 0)

/-- The fixed Roman-numeral table ROMAN of track_selector.py (I..XXV). -/
def ROMAN : List (String × Int) :=
  [("I", 1), ("II", 2), ("III", 3), ("IV", 4), ("V", 5), ("VI", 6), ("VII", 7),
   ("VIII", 8), ("IX", 9), ("X", 10), ("XI", 11), ("XII", 12), ("XIII", 13),
   ("XIV", 14), ("XV", 15), ("XVI", 16), ("XVII", 17), ("XVIII", 18),
   ("XIX", 19), ("XX", 20), ("XXI", 21), ("XXII", 22), ("XXIII", 23),
   ("XXIV", 24), ("XXV", 25)]

/-- Raw inventory record for one track (the per-track dict of the dataset). -/
structure TrackInfo where
  marciapiede_complessivo_m : Option Int
  marciapiede_alto_m : Option Int
  marciapiede_basso_m : Option Int
  capacita_funzionale_m : Option Int
  capacita_funzionle_m : Option Int
deriving DecidableEq

/-- TrackDataset = Dict[str, Dict[str, Any]] of track_selector.py. -/
abbrev TrackDataset := List (String × TrackInfo)

/-- The TrackMetadata named tuple of track_selector.py. -/
structure TrackMetadata where
  num : Option Int
  suffix : String
  len_compl : Int
  cap_fun : Int
deriving DecidableEq

/-- The CategoryRuleConfig dataclass of app/config_service.py. -/
structure CategoryRuleConfig where
  allow_bis : Bool
  allow_no_platform : Bool
  min_track_number : Option Int
  max_track_number : Option Int
  preferred_min_track_number : Option Int
  preferred_max_track_number : Option Int
  deny_track_names : List String
  deny_track_patterns : List String
  deny_track_numbers : List Int
deriving DecidableEq

/-- One entry of the criteria list of a PriorityConfig (a JSON dict with
optional keys "key", "weight", "direction"). -/
structure Criterion where
  key : Option String
  weight : Option ℚ
  direction : Option ℚ
deriving DecidableEq

/-- The PriorityConfig dataclass of app/config_service.py. -/
structure PriorityConfig where
  criteria : List Criterion
  same_number_bonus : ℚ
deriving DecidableEq

/-- One entry of the result list of select_tracks. -/
structure Suggestion where
  track : String
  reason : String
deriving DecidableEq

/-- The exception raised by select_tracks (always a ValueError). -/
inductive SelectError where
  | valueError (msg : String)
deriving DecidableEq

deriving instance DecidableEq for Except

/-- Python exception class name of a raised error. -/
def SelectError.className : SelectError → String
  | .valueError _ => "ValueError"

/-- Python truthiness of an int-or-None attribute value. -/
def truthyInt : Option Int → Bool
  | none => false
  | some n => !(n == 0)

/-- Python (value or 0) for an int-or-None attribute value. -/
def getOr0 (v : Option Int) : Int := v.getD 0

/-- Python dict lookup d.get(k) over the association-list model. -/
def dictGet {α : Type} (d : List (String × α)) (k : String) : Option α :=
  (d.find? (fun p => p.1 == k)).map (fun p => p.2)

/-- Python dict assignment d[k] = v: replace in place, else append. -/
def dictInsert {α : Type} (d : List (String × α)) (k : String) (v : α) :
    List (String × α) :=
  if d.any (fun p => p.1 == k) then
    d.map (fun p => if p.1 == k then (k, v) else p)
  else d ++ [(k, v)]

/-- Total companion of the parser _parse_track_name of track_selector.py
(string input): it collapses the one error path of the source, where
int(first) raises ValueError because first.isdigit() passed on a
digit-typed non-decimal character. The faithful fallible translation is
_parse_track_name_e below; on every input where that one returns, the two
agree (theorem parse_track_name_e_ok_eq). -/
def _parse_track_name (name : String) : Option Int × String × String :=
  let normalised := String.intercalate " " (splitWs (pyUpper (pyStrip name)))
  if normalised = "" then (none, "", "")
  else
    let parts := splitWs normalised
    let first := parts.headD ""
    let number : Option Int :=
      if isDigitStr first then some (pyIntOfDigits first) else ROMAN.lookup first
    let suffix := if parts.length > 1 then parts.getD 1 "" else ""
    (number, suffix, normalised)

/-- Wrapper for the isinstance(name, str) guard: a none input stands for a
non-string Python value. -/
def _parse_track_name_any : Option String → Option Int × String × String
  | none => (none, "", "")
  | some s => _parse_track_name s

/-- Translation of _profile_tuple of track_selector.py; a none argument is
the empty dict used as the default of tracks.get. -/
def _profile_tuple (info : Option TrackInfo) : Int × Int :=
  match info with
  | none => (0, 0)
  | some i =>
    ((if getOr0 i.marciapiede_alto_m > 0 then 1 else 0),
     (if getOr0 i.marciapiede_basso_m > 0 then 1 else 0))

/-- Translation of _track_similarity_score of track_selector.py. -/
def _track_similarity_score (candidate_info : Option TrackInfo)
    (planned_info : Option TrackInfo) : Int :=
  match planned_info with
  | none => 0
  | some p =>
    let candidate_len :=
      match candidate_info with
      | none => 0
      | some ci => getOr0 ci.marciapiede_complessivo_m
    let planned_len := getOr0 p.marciapiede_complessivo_m
    (if candidate_len > 0 && candidate_len == planned_len then 2 else 0) +
    (if _profile_tuple candidate_info == _profile_tuple (some p) then 1 else 0)

/-- Python float values arising in the scorer, with IEEE special values. -/
inductive PyFloat where
  | rat (q : ℚ)
  | inf
  | ninf
  | nan
deriving DecidableEq

/-- IEEE multiplication on PyFloat (Python float semantics). -/
def pyMul : PyFloat → PyFloat → PyFloat
  | .nan, _ => .nan
  | _, .nan => .nan
  | .inf, .inf => .inf
  | .inf, .ninf => .ninf
  | .ninf, .inf => .ninf
  | .ninf, .ninf => .inf
  | .inf, .rat q => if 0 < q then .inf else if q < 0 then .ninf else .nan
  | .rat q, .inf => if 0 < q then .inf else if q < 0 then .ninf else .nan
  | .ninf, .rat q => if 0 < q then .ninf else if q < 0 then .inf else .nan
  | .rat q, .ninf => if 0 < q then .ninf else if q < 0 then .inf else .nan
  | .rat a, .rat b => .rat (a * b)

/-- Python strict comparison on floats (nan incomparable). -/
def pyLtB : PyFloat → PyFloat → Bool
  | .rat a, .rat b => decide (a < b)
  | .rat _, .inf => true
  | .ninf, .rat _ => true
  | .ninf, .inf => true
  | _, _ => false

/-- Python equality on floats (nan not equal to itself). -/
def pyEqB : PyFloat → PyFloat → Bool
  | .rat a, .rat b => decide (a = b)
  | .inf, .inf => true
  | .ninf, .ninf => true
  | _, _ => false

/-- Python tuple comparison on key tuples, element by element. -/
def tupleLt : List PyFloat → List PyFloat → Bool
  | [], [] => false
  | [], _ :: _ => true
  | _ :: _, [] => false
  | a :: as, b :: bs => if pyEqB a b then tupleLt as bs else pyLtB a b

/-- math.isfinite on the PyFloat model. -/
def isFiniteB : PyFloat → Bool
  | .rat _ => true
  | _ => false

/-- Python int() truncation of a finite float (proximity values only). -/
def pyTrunc : PyFloat → Int
  | .rat q => Int.tdiv q.num (Int.ofNat q.den)
  | _ => 0

/-- Translation of _proximity_rank of track_selector.py. -/
def _proximity_rank (candidate_num : Option Int) (candidate_suffix : String)
    (planned_num : Option Int) (planned_suffix : String) : PyFloat :=
  match candidate_num, planned_num with
  | some c, some p =>
    if c == p && !(candidate_suffix == planned_suffix) then .rat 1
    else .rat ((abs (c - p) : Int) : ℚ)
  | _, _ => .inf

/-- Translation of _normalise_capacity of track_selector.py: the canonical
key, a misspelt fallback key, then 0; int() of the chosen value. -/
def _normalise_capacity (info : TrackInfo) : Int :=
  if truthyInt info.capacita_funzionale_m then getOr0 info.capacita_funzionale_m
  else if truthyInt info.capacita_funzionle_m then getOr0 info.capacita_funzionle_m
  else 0

/-- Translation of _validate_track_data of track_selector.py: on the int-or-
None attribute model a record is valid exactly when the total platform
length key is present (int() of an int never fails). -/
def _validate_track_data (info : TrackInfo) : Bool :=
  info.marciapiede_complessivo_m.isSome

/-- Translation of _build_track_metadata of track_selector.py over the
total parser; the fallible translation _build_track_metadata_e below
propagates the parser ValueError instead, and agrees with this one
whenever it returns (theorem build_track_metadata_e_ok_eq). -/
def _build_track_metadata (tracks : TrackDataset) : List (String × TrackMetadata) :=
  tracks.foldl
    (fun acc nv =>
      if _validate_track_data nv.2 then
        let r := _parse_track_name nv.1
        dictInsert acc r.2.2
          ⟨r.1, r.2.1, getOr0 nv.2.marciapiede_complessivo_m, _normalise_capacity nv.2⟩
      else acc)
    []

/-- Last binding of the dict comprehension {(meta.num, meta.suffix): name}
(later entries of the iteration overwrite earlier ones). -/
def pairIndexGet (track_meta : List (String × TrackMetadata))
    (pn : Option Int) (ps : String) : Option String :=
  (track_meta.reverse.find? (fun p => decide (p.2.num = pn ∧ p.2.suffix = ps))).map
    (fun p => p.1)

/-- Python truthiness of the optional planned-track string. -/
def truthyStr : Option String → Bool
  | none => false
  | some s => !(s == "")

/-- Test that the first list starts the second (helper for the substring test). -/
def leadsWith : List Char → List Char → Bool
  | [], _ => true
  | _ :: _, [] => false
  | a :: as, b :: bs => a == b && leadsWith as bs

/-- Occurrence of a pattern inside a character list (helper). -/
def listOccurs (pat : List Char) : List Char → Bool
  | [] => pat.isEmpty
  | c :: cs => leadsWith pat (c :: cs) || listOccurs pat cs

/-- Python substring test (pattern in name). -/
def strContains (s : String) (pat : String) : Bool :=
  listOccurs pat.data s.data

/-- Translation of _resolve_planned_track of track_selector.py over the
total parser; the fallible translation _resolve_planned_track_e below
propagates the parser ValueError instead. -/
def _resolve_planned_track (planned_track : Option String)
    (track_meta : List (String × TrackMetadata)) (tracks : TrackDataset) :
    Option Int × String × Option TrackInfo :=
  if truthyStr planned_track then
    let r := _parse_track_name (planned_track.getD "")
    let resolved_norm := (pairIndexGet track_meta r.1 r.2.1).getD r.2.2
    let planned_info := dictGet tracks resolved_norm
    (r.1, r.2.1, planned_info)
  else (none, "", none)

/-- Translation of _priority_class of track_selector.py. -/
def _priority_class (num : Option Int) (rule : CategoryRuleConfig) : Int :=
  match num with
  | none => 0
  | some n =>
    if (match rule.min_track_number with
        | some m => decide (n < m)
        | none => false) then 1
    else if (match rule.max_track_number with
        | some mx => decide (mx < n)
        | none => false) then 1
    else
      match rule.preferred_min_track_number, rule.preferred_max_track_number with
      | some pmin, some pmax => if pmin ≤ n ∧ n ≤ pmax then 0 else 1
      | _, _ => 0

/-- Translation of _is_track_excluded of track_selector.py (the conditions
are evaluated in the order of the source; the first hit excludes). -/
def _is_track_excluded (norm_name : String) (num : Option Int) (suffix : String)
    (rule : CategoryRuleConfig) (planned_num : Option Int)
    (planned_suffix : String) : Bool :=
  if norm_name == "SSE AMB." then true
  else if planned_num.isSome && decide (num = planned_num)
      && decide (suffix = planned_suffix) then true
  else if suffix == "BIS" && !rule.allow_bis then true
  else if (match num with
      | some n =>
        (match rule.min_track_number with
         | some m => decide (n < m)
         | none => false) ||
        (match rule.max_track_number with
         | some mx => decide (mx < n)
         | none => false) ||
        rule.deny_track_numbers.contains n
      | none => false) then true
  else if rule.deny_track_names.contains norm_name then true
  else if rule.deny_track_patterns.any
      (fun pat => !(pat == "") && strContains norm_name pat) then true
  else false

/-- Translation of _meets_length_requirements of track_selector.py. -/
def _meets_length_requirements (len_compl : Int) (cap_fun : Int)
    (train_length : Int) (rule : CategoryRuleConfig) : Bool :=
  if !rule.allow_no_platform && decide (len_compl ≤ 0) then false
  else if rule.allow_no_platform then
    if cap_fun > 0 then decide (cap_fun ≥ train_length)
    else if len_compl > 0 then decide (len_compl ≥ train_length)
    else true
  else decide (len_compl ≥ train_length)

/-- The CandidateRecord dataclass of track_selector.py. -/
structure CandidateRecord where
  name : String
  priority_class : Int
  proximity : PyFloat
  similarity_score : Int
  same_number_bonus : ℚ
  len_delta : Int
  sort_num : PyFloat
  suffix_flag : Int
  len_compl : Int
  cap_fun : Int
  num : Option Int
  suffix : String
deriving DecidableEq

/-- Planned platform length int(planned_info.get(key) or 0) used by
_build_candidate_record (0 when no planned info is resolved). -/
def plannedLenOf (planned_info : Option TrackInfo) : Int :=
  match planned_info with
  | some p => getOr0 p.marciapiede_complessivo_m
  | none => 0

/-- Body of _build_candidate_record once the candidate info has been read
from the dataset. -/
def _build_candidate_record_core (norm_name : String) (meta : TrackMetadata)
    (planned_num : Option Int) (planned_suffix : String)
    (planned_info : Option TrackInfo) (cand_info : Option TrackInfo)
    (rule : CategoryRuleConfig) (priority : PriorityConfig) : CandidateRecord :=
  let proximity := _proximity_rank meta.num meta.suffix planned_num planned_suffix
  let similarity := _track_similarity_score cand_info planned_info
  let planned_len := plannedLenOf planned_info
  let len_delta := abs ((if planned_len = 0 then meta.len_compl else planned_len) - meta.len_compl)
  let priority_class := _priority_class meta.num rule
  let sort_num : PyFloat :=
    match meta.num with
    | some n => .rat (n : ℚ)
    | none => .inf
  let suffix_flag : Int := if meta.suffix = "" then 0 else 1
  let same_number_bonus : ℚ :=
    if planned_num.isSome ∧ meta.num = planned_num ∧ meta.suffix ≠ planned_suffix then
      priority.same_number_bonus
    else 0
  ⟨norm_name, priority_class, proximity, similarity, same_number_bonus, len_delta,
   sort_num, suffix_flag, meta.len_compl, meta.cap_fun, meta.num, meta.suffix⟩

/-- Translation of _build_candidate_record of track_selector.py. -/
def _build_candidate_record (norm_name : String) (meta : TrackMetadata)
    (planned_num : Option Int) (planned_suffix : String)
    (planned_info : Option TrackInfo) (tracks : TrackDataset)
    (rule : CategoryRuleConfig) (priority : PriorityConfig) : CandidateRecord :=
  _build_candidate_record_core norm_name meta planned_num planned_suffix
    planned_info (dictGet tracks norm_name) rule priority

/-- Translation of _criterion_value of track_selector.py. -/
def _criterion_value (key : String) (record : CandidateRecord)
    (priority : PriorityConfig) : PyFloat :=
  if key == "priority_class" then .rat (record.priority_class : ℚ)
  else if key == "proximity" then record.proximity
  else if key == "similarity" then .rat (-(record.similarity_score : ℚ))
  else if key == "same_number" then .rat record.same_number_bonus
  else if key == "length_delta" then .rat (record.len_delta : ℚ)
  else if key == "track_number" then record.sort_num
  else if key == "suffix_flag" then .rat (record.suffix_flag : ℚ)
  else if key == "no_platform_first" then
    (if record.len_compl = 0 then .rat 0 else .rat 1)
  else if key == "bis_preference" then
    (if record.suffix = "BIS" then .rat 0 else .rat 1)
  else .rat 0

/-- The sort_key closure of select_tracks: one weighted value per criterion
entry carrying a truthy key. -/
def sortKeyOf (criteria : List Criterion) (priority : PriorityConfig)
    (record : CandidateRecord) : List PyFloat :=
  criteria.filterMap
    (fun c =>
      match c.key with
      | none => none
      | some k =>
        if k = "" then none
        else some (pyMul (pyMul (_criterion_value k record priority)
          (.rat (c.weight.getD 1))) (.rat (c.direction.getD 1))))

/-- Stable insertion of an element after every element not greater than it. -/
def sinsert {α : Type} (lt : α → α → Bool) (a : α) : List α → List α
  | [] => [a]
  | b :: bs => if lt a b then a :: b :: bs else b :: sinsert lt a bs

/-- Stable ascending sort by a strict comparison, modelling list.sort of
Python (any stable sort agrees with it on a strict weak order). -/
def pySort {α : Type} (lt : α → α → Bool) (l : List α) : List α :=
  l.foldl (fun acc a => sinsert lt a acc) []

/-- Body of _build_reason of track_selector.py once the candidate info has
been read from the dataset; the clause list is assembled in source order. -/
def _build_reason_core (record : CandidateRecord) (train_length_m : Int)
    (planned_num : Option Int) (planned_suffix : String)
    (info : Option TrackInfo) (rule : CategoryRuleConfig) : String :=
  let parts1 : List String :=
    if rule.allow_no_platform ∧ record.len_compl = 0 then
      ["Nessun marciapiede disponibile: consentito per questa categoria."]
    else
      ["Marciapiede da " ++ toString record.len_compl ++
        " m >= lunghezza treno " ++ toString train_length_m ++ " m."]
  let parts2 := parts1 ++
    (if record.cap_fun > 0 then
      ["Capacita funzionale " ++ toString record.cap_fun ++
        " m sufficiente per il treno da " ++ toString train_length_m ++ " m."]
    else [])
  let parts3 := parts2 ++
    (if rule.allow_bis ∧ record.suffix = "BIS" then
      ["Binario BIS ammesso dalle regole della categoria."]
    else [])
  let parts4 := parts3 ++
    (match rule.preferred_min_track_number, rule.preferred_max_track_number with
     | some pmin, some pmax =>
       if record.priority_class = 0 then
         ["Binario nella fascia prioritaria (" ++ toString pmin ++ "-" ++
           toString pmax ++ ")."]
       else
         ["Binario di supporto rispetto alla fascia preferita (" ++ toString pmin ++
           "-" ++ toString pmax ++ ")."]
     | _, _ => [])
  let parts5 := parts4 ++
    (match planned_num with
     | none => []
     | some pn =>
       if record.num = some pn ∧ record.suffix ≠ planned_suffix then
         ["Variante dello stesso numero del binario previsto."]
       else if record.num.isSome ∧ isFiniteB record.proximity then
         let distance := pyTrunc record.proximity
         if distance = 0 then ["Stesso numero del binario previsto."]
         else if distance = 1 then ["Adiacente al binario previsto."]
         else ["Distanza di " ++ toString distance ++ " numeri dal binario previsto."]
       else if !(isFiniteB record.proximity) then
         ["Numero non confrontabile con il binario previsto."]
       else [])
  let parts6 := parts5 ++
    (if record.similarity_score ≥ 2 then ["Marciapiede identico al previsto."]
     else if record.similarity_score = 1 then
       ["Profilo marciapiede coerente con il previsto."]
     else [])
  let hl := _profile_tuple info
  let parts7 := parts6 ++
    (if hl.1 ≠ 0 ∧ hl.2 = 0 then ["Disponibile marciapiede alto."]
     else if hl.2 ≠ 0 ∧ hl.1 = 0 then ["Disponibile marciapiede basso."]
     else if hl.1 ≠ 0 ∧ hl.2 ≠ 0 then ["Disponibili marciapiedi alto e basso."]
     else [])
  let partsF := if parts7.isEmpty then ["Rispetta tutti i vincoli configurati."] else parts7
  String.intercalate " " partsF

/-- Translation of _build_reason of track_selector.py (the train_type
argument of the source is unused by its body and omitted here). -/
def _build_reason (record : CandidateRecord) (train_length_m : Int)
    (planned_num : Option Int) (planned_suffix : String)
    (tracks : TrackDataset) (rule : CategoryRuleConfig) : String :=
  _build_reason_core record train_length_m planned_num planned_suffix
    (dictGet tracks record.name) rule

/-- The effective criteria list: priority_config.criteria or the default
single track_number criterion when the configured list is empty. -/
def effectiveCriteria (priority : PriorityConfig) : List Criterion :=
  if priority.criteria.isEmpty then [⟨some "track_number", none, none⟩]
  else priority.criteria

/-- Translation of select_tracks of track_selector.py over the total
parser. The faithful fallible translation is select_tracks_e below, which
additionally propagates the ValueError that _parse_track_name can raise;
whenever select_tracks_e returns a list, this function returns the same
list (theorem select_tracks_e_ok_eq), so properties of returned lists can
be read off this total version. -/
def select_tracks (train_code : String) (train_length_m : Int)
    (train_category : Option String) (tracks : TrackDataset)
    (planned_track : Option String) (category_rule : Option CategoryRuleConfig)
    (priority_config : Option PriorityConfig) :
    Except SelectError (List Suggestion) :=
  if train_length_m ≤ 0 then
    .error (.valueError "Train length must be greater than zero.")
  else
    match category_rule, priority_config with
    | some rule, some priority =>
      let metadata := _build_track_metadata tracks
      if metadata.isEmpty then
        .error (.valueError "No valid tracks found in dataset.")
      else
        let rp := _resolve_planned_track planned_track metadata tracks
        let planned_num := rp.1
        let planned_suffix := rp.2.1
        let planned_info := rp.2.2
        let surviving := metadata.filter
          (fun p =>
            !(_is_track_excluded p.1 p.2.num p.2.suffix rule planned_num planned_suffix)
            && _meets_length_requirements p.2.len_compl p.2.cap_fun train_length_m rule)
        let candidates := surviving.map
          (fun p => _build_candidate_record p.1 p.2 planned_num planned_suffix
            planned_info tracks rule priority)
        let criteria := effectiveCriteria priority
        let sorted := pySort
          (fun a b => tupleLt (sortKeyOf criteria priority a) (sortKeyOf criteria priority b))
          candidates
        .ok ((sorted.take 7).map
          (fun c => ⟨c.name, _build_reason c train_length_m planned_num planned_suffix tracks rule⟩))
    | _, _ => .error (.valueError "Configuration objects are required.")

/-- Track names of a successful result (empty on a raised error). -/
def okTrackNames : Except SelectError (List Suggestion) → List String
  | .ok l => l.map (fun s => s.track)
  | .error _ => []

/-- Exception class of a failed result (none on success). -/
def errClassOf : Except SelectError (List Suggestion) → Option String
  | .ok _ => none
  | .error e => some e.className

/-- State-passing dict read: tracks.get never changes the dict. -/
def dictGetSt {α : Type} (d : List (String × α)) (k : String) :
    Option α × List (String × α) :=
  (dictGet d k, d)

/-- State-passing _build_track_metadata: iterating tracks.items() reads the
dataset and never writes to it. -/
def _build_track_metadata_st (tracks : TrackDataset) :
    List (String × TrackMetadata) × TrackDataset :=
  tracks.foldl
    (fun st nv =>
      (if _validate_track_data nv.2 then
        let r := _parse_track_name nv.1
        dictInsert st.1 r.2.2
          ⟨r.1, r.2.1, getOr0 nv.2.marciapiede_complessivo_m, _normalise_capacity nv.2⟩
      else st.1, st.2))
    ([], tracks)

/-- State-passing _resolve_planned_track. -/
def _resolve_planned_track_st (planned_track : Option String)
    (track_meta : List (String × TrackMetadata)) (tracks : TrackDataset) :
    (Option Int × String × Option TrackInfo) × TrackDataset :=
  if truthyStr planned_track then
    let r := _parse_track_name (planned_track.getD "")
    let resolved_norm := (pairIndexGet track_meta r.1 r.2.1).getD r.2.2
    let gi := dictGetSt tracks resolved_norm
    ((r.1, r.2.1, gi.1), gi.2)
  else ((none, "", none), tracks)

/-- State-passing _build_candidate_record. -/
def _build_candidate_record_st (norm_name : String) (meta : TrackMetadata)
    (planned_num : Option Int) (planned_suffix : String)
    (planned_info : Option TrackInfo) (tracks : TrackDataset)
    (rule : CategoryRuleConfig) (priority : PriorityConfig) :
    CandidateRecord × TrackDataset :=
  let gi := dictGetSt tracks norm_name
  (_build_candidate_record_core norm_name meta planned_num planned_suffix
    planned_info gi.1 rule priority, gi.2)

/-- State-passing _build_reason. -/
def _build_reason_st (record : CandidateRecord) (train_length_m : Int)
    (planned_num : Option Int) (planned_suffix : String)
    (tracks : TrackDataset) (rule : CategoryRuleConfig) :
    String × TrackDataset :=
  let gi := dictGetSt tracks record.name
  (_build_reason_core record train_length_m planned_num planned_suffix gi.1 rule, gi.2)

/-- State-passing translation of select_tracks: the dataset reference is
threaded through every read the source performs, and returned alongside the
result, so that the frame property can be stated. -/
def select_tracks_st (train_code : String) (train_length_m : Int)
    (train_category : Option String) (planned_track : Option String)
    (category_rule : Option CategoryRuleConfig)
    (priority_config : Option PriorityConfig) (tracks : TrackDataset) :
    Except SelectError (List Suggestion) × TrackDataset :=
  if train_length_m ≤ 0 then
    (.error (.valueError "Train length must be greater than zero."), tracks)
  else
    match category_rule, priority_config with
    | some rule, some priority =>
      let bm := _build_track_metadata_st tracks
      let metadata := bm.1
      if metadata.isEmpty then
        (.error (.valueError "No valid tracks found in dataset."), bm.2)
      else
        let rps := _resolve_planned_track_st planned_track metadata bm.2
        let planned_num := rps.1.1
        let planned_suffix := rps.1.2.1
        let planned_info := rps.1.2.2
        let surviving := metadata.filter
          (fun p =>
            !(_is_track_excluded p.1 p.2.num p.2.suffix rule planned_num planned_suffix)
            && _meets_length_requirements p.2.len_compl p.2.cap_fun train_length_m rule)
        let cs := surviving.foldl
          (fun (st : List CandidateRecord × TrackDataset) p =>
            let rc := _build_candidate_record_st p.1 p.2 planned_num planned_suffix
              planned_info st.2 rule priority
            (st.1 ++ [rc.1], rc.2))
          ([], rps.2)
        let criteria := effectiveCriteria priority
        let sorted := pySort
          (fun a b => tupleLt (sortKeyOf criteria priority a) (sortKeyOf criteria priority b))
          cs.1
        let outp := (sorted.take 7).foldl
          (fun (st : List Suggestion × TrackDataset) c =>
            let rs := _build_reason_st c train_length_m planned_num planned_suffix st.2 rule
            (st.1 ++ [(⟨c.name, rs.1⟩ : Suggestion)], rs.2))
          ([], cs.2)
        (.ok outp.1, outp.2)
    | _, _ => (.error (.valueError "Configuration objects are required."), tracks)

/-- Digit-typed characters that are not decimal digits (Unicode
Numeric_Type=Digit without general category Nd): the superscript and
subscript digits. CPython str.isdigit() is true on them while int()
rejects them. The modelled character universe is ASCII plus these
characters; other Unicode numerals are outside the model. -/
def isDigitNonDecimal (c : Char) : Bool :=
  c.toNat == 0xB2 || c.toNat == 0xB3 || c.toNat == 0xB9 ||
  c.toNat == 0x2070 ||
  (decide (0x2074 ≤ c.toNat) && decide (c.toNat ≤ 0x2079)) ||
  (decide (0x2080 ≤ c.toNat) && decide (c.toNat ≤ 0x2089))

/-- Python str.isdigit() on one character of the modelled universe. -/
def pyIsDigitChar (c : Char) : Bool :=
  c.isDigit || isDigitNonDecimal c

/-- Python str.isdigit(): non-empty and all digit-typed characters. A
string can pass this test and still be rejected by int(), e.g. a
superscript digit. -/
def pyIsDigitStr (s : String) : Bool :=
  !s.data.isEmpty && s.data.all pyIsDigitChar

/-- Faithful translation of _parse_track_name of track_selector.py: the
source computes int(first) under the guard first.isdigit(), and int()
raises ValueError when the guard passed on digit-typed non-decimal
characters. The error branch carries the CPython message (the repr
quoting of the literal is omitted). -/
def _parse_track_name_e (name : String) :
    Except SelectError (Option Int × String × String) :=
  let normalised := String.intercalate " " (splitWs (pyUpper (pyStrip name)))
  if normalised = "" then .ok (none, "", "")
  else
    let parts := splitWs normalised
    let first := parts.headD ""
    let suffix := if parts.length > 1 then parts.getD 1 "" else ""
    if pyIsDigitStr first then
      if isDigitStr first then .ok (some (pyIntOfDigits first), suffix, normalised)
      else .error (.valueError ("invalid literal for int() with base 10: " ++ first))
    else .ok (ROMAN.lookup first, suffix, normalised)

/-- Wrapper for the isinstance(name, str) guard of the faithful parser. -/
def _parse_track_name_any_e :
    Option String → Except SelectError (Option Int × String × String)
  | none => .ok (none, "", "")
  | some s => _parse_track_name_e s

/-- Faithful translation of _build_track_metadata of track_selector.py:
the parser runs on every validated name and its ValueError propagates out
of the loop. -/
def _build_track_metadata_e (tracks : TrackDataset) :
    Except SelectError (List (String × TrackMetadata)) :=
  tracks.foldl
    (fun acc nv =>
      match acc with
      | .error e => .error e
      | .ok md =>
        if _validate_track_data nv.2 then
          match _parse_track_name_e nv.1 with
          | .error e => .error e
          | .ok r =>
            .ok (dictInsert md r.2.2
              (⟨r.1, r.2.1, getOr0 nv.2.marciapiede_complessivo_m,
                _normalise_capacity nv.2⟩ : TrackMetadata))
        else .ok md)
    (.ok [])

/-- Faithful translation of _resolve_planned_track of track_selector.py:
parsing the planned reference can raise. -/
def _resolve_planned_track_e (planned_track : Option String)
    (track_meta : List (String × TrackMetadata)) (tracks : TrackDataset) :
    Except SelectError (Option Int × String × Option TrackInfo) :=
  if truthyStr planned_track then
    match _parse_track_name_e (planned_track.getD "") with
    | .error e => .error e
    | .ok r =>
      let resolved_norm := (pairIndexGet track_meta r.1 r.2.1).getD r.2.2
      .ok (r.1, r.2.1, dictGet tracks resolved_norm)
  else .ok (none, "", none)

/-- Faithful translation of select_tracks of track_selector.py: identical
to select_tracks except that the two parsing steps can raise, and the
raised ValueError propagates to the caller. -/
def select_tracks_e (train_code : String) (train_length_m : Int)
    (train_category : Option String) (tracks : TrackDataset)
    (planned_track : Option String) (category_rule : Option CategoryRuleConfig)
    (priority_config : Option PriorityConfig) :
    Except SelectError (List Suggestion) :=
  if train_length_m ≤ 0 then
    .error (.valueError "Train length must be greater than zero.")
  else
    match category_rule, priority_config with
    | some rule, some priority =>
      match _build_track_metadata_e tracks with
      | .error e => .error e
      | .ok metadata =>
        if metadata.isEmpty then
          .error (.valueError "No valid tracks found in dataset.")
        else
          match _resolve_planned_track_e planned_track metadata tracks with
          | .error e => .error e
          | .ok rp =>
            let planned_num := rp.1
            let planned_suffix := rp.2.1
            let planned_info := rp.2.2
            let surviving := metadata.filter
              (fun p =>
                !(_is_track_excluded p.1 p.2.num p.2.suffix rule planned_num planned_suffix)
                && _meets_length_requirements p.2.len_compl p.2.cap_fun train_length_m rule)
            let candidates := surviving.map
              (fun p => _build_candidate_record p.1 p.2 planned_num planned_suffix
                planned_info tracks rule priority)
            let criteria := effectiveCriteria priority
            let sorted := pySort
              (fun a b => tupleLt (sortKeyOf criteria priority a) (sortKeyOf criteria priority b))
              candidates
            .ok ((sorted.take 7).map
              (fun c => ⟨c.name, _build_reason c train_length_m planned_num planned_suffix tracks rule⟩))
    | _, _ => .error (.valueError "Configuration objects are required.")

/-! Helper lemmas about the sort, the dict model and the metadata map. -/

theorem mem_sinsert {α : Type} (lt : α → α → Bool) (a x : α) (l : List α) :
    x ∈ sinsert lt a l ↔ x = a ∨ x ∈ l := by
  induction l with
  | nil => simp [sinsert]
  | cons b bs ih =>
    simp only [sinsert]
    split
    · simp
    · simp [ih]; tauto

theorem mem_pySort_aux {α : Type} (lt : α → α → Bool) (l : List α) :
    ∀ acc x, x ∈ l.foldl (fun acc a => sinsert lt a acc) acc ↔ x ∈ acc ∨ x ∈ l := by
  induction l with
  | nil => simp
  | cons b bs ih =>
    intro acc x
    simp only [List.foldl_cons, ih, mem_sinsert, List.mem_cons]
    tauto

theorem mem_pySort {α : Type} (lt : α → α → Bool) (l : List α) (x : α) :
    x ∈ pySort lt l ↔ x ∈ l := by
  simp [pySort, mem_pySort_aux]

theorem keys_dictInsert {α : Type} (d : List (String × α)) (k : String) (v : α)
    (h : (d.map Prod.fst).Nodup) : ((dictInsert d k v).map Prod.fst).Nodup := by
  unfold dictInsert
  split
  · have hmap : (d.map (fun p => if p.1 == k then (k, v) else p)).map Prod.fst
        = d.map Prod.fst := by
      rw [List.map_map]
      apply List.map_congr_left
      intro p _
      simp only [Function.comp_apply]
      by_cases hp : p.1 = k
      · subst hp; simp
      · simp [hp]
    rw [hmap]
    exact h
  · next hany =>
    rw [List.map_append]
    simp only [List.map_cons, List.map_nil]
    rw [List.nodup_append]
    refine ⟨h, List.nodup_singleton k, ?_⟩
    intro a ha hb
    simp only [List.mem_singleton] at hb
    subst hb
    rcases List.mem_map.mp ha with ⟨p, hp, hpa⟩
    exact hany (List.any_eq_true.mpr ⟨p, hp, by simp [hpa]⟩)

theorem keys_build_track_metadata_aux (tracks : TrackDataset) :
    ∀ acc : List (String × TrackMetadata), (acc.map Prod.fst).Nodup →
      ((tracks.foldl
        (fun acc nv =>
          if _validate_track_data nv.2 then
            let r := _parse_track_name nv.1
            dictInsert acc r.2.2
              ⟨r.1, r.2.1, getOr0 nv.2.marciapiede_complessivo_m, _normalise_capacity nv.2⟩
          else acc) acc).map Prod.fst).Nodup := by
  induction tracks with
  | nil => intro acc h; simpa using h
  | cons nv rest ih =>
    intro acc h
    simp only [List.foldl_cons]
    split
    · exact ih _ (keys_dictInsert _ _ _ h)
    · exact ih _ h

theorem keys_build_track_metadata (tracks : TrackDataset) :
    ((_build_track_metadata tracks).map Prod.fst).Nodup := by
  unfold _build_track_metadata
  exact keys_build_track_metadata_aux tracks [] (by simp)

theorem assoc_unique {α : Type} (d : List (String × α)) (k : String) (v w : α)
    (hnd : (d.map Prod.fst).Nodup) (hv : (k, v) ∈ d) (hw : (k, w) ∈ d) : v = w := by
  induction d with
  | nil => simp at hv
  | cons p rest ih =>
    obtain ⟨pk, pv⟩ := p
    simp only [List.map_cons, List.nodup_cons] at hnd
    rcases List.mem_cons.mp hv with hv1 | hv1 <;> rcases List.mem_cons.mp hw with hw1 | hw1
    · injection hv1 with h1 h2
      subst h1
      subst h2
      injection hw1 with h3 h4
      exact h4.symm
    · injection hv1 with h1 h2
      subst h1
      exact absurd (List.mem_map.mpr ⟨(k, w), hw1, rfl⟩) hnd.1
    · injection hw1 with h1 h2
      subst h1
      exact absurd (List.mem_map.mpr ⟨(k, v), hv1, rfl⟩) hnd.1
    · exact ih hnd.2 hv1 hw1

theorem isDigitStr_pyIsDigitStr (s : String) (h : isDigitStr s = true) :
    pyIsDigitStr s = true := by
  unfold isDigitStr at h
  unfold pyIsDigitStr
  rw [Bool.and_eq_true] at h ⊢
  obtain ⟨h1, h2⟩ := h
  refine ⟨h1, ?_⟩
  rw [List.all_eq_true] at h2 ⊢
  intro c hc
  unfold pyIsDigitChar
  rw [Bool.or_eq_true]
  exact Or.inl (h2 c hc)

theorem parse_track_name_e_ok_eq (s : String) (r : Option Int × String × String)
    (hok : _parse_track_name_e s = .ok r) : _parse_track_name s = r := by
  unfold _parse_track_name_e at hok
  unfold _parse_track_name
  by_cases hn : String.intercalate " " (splitWs (pyUpper (pyStrip s))) = ""
  · rw [if_pos hn] at hok
    rw [if_pos hn]
    injection hok
  · rw [if_neg hn] at hok
    rw [if_neg hn]
    simp only [] at hok ⊢
    by_cases hpd : pyIsDigitStr ((splitWs (String.intercalate " "
        (splitWs (pyUpper (pyStrip s))))).headD "") = true
    · rw [if_pos hpd] at hok
      by_cases hd : isDigitStr ((splitWs (String.intercalate " "
          (splitWs (pyUpper (pyStrip s))))).headD "") = true
      · rw [if_pos hd] at hok
        rw [if_pos hd]
        injection hok
      · rw [if_neg hd] at hok
        exact absurd hok (by simp)
    · rw [if_neg hpd] at hok
      have hd : isDigitStr ((splitWs (String.intercalate " "
          (splitWs (pyUpper (pyStrip s))))).headD "") = false := by
        cases hq : isDigitStr ((splitWs (String.intercalate " "
            (splitWs (pyUpper (pyStrip s))))).headD "")
        · rfl
        · exact absurd (isDigitStr_pyIsDigitStr _ hq) hpd
      have hd2 : ¬ (isDigitStr ((splitWs (String.intercalate " "
          (splitWs (pyUpper (pyStrip s))))).headD "") = true) := by
        rw [hd]
        simp
      rw [if_neg hd2]
      injection hok

theorem build_md_e_fold_err (l : TrackDataset) (e : SelectError) :
    l.foldl
      (fun (acc : Except SelectError (List (String × TrackMetadata))) nv =>
        match acc with
        | .error e2 => .error e2
        | .ok md2 =>
          if _validate_track_data nv.2 then
            match _parse_track_name_e nv.1 with
            | .error e2 => .error e2
            | .ok r =>
              .ok (dictInsert md2 r.2.2
                (⟨r.1, r.2.1, getOr0 nv.2.marciapiede_complessivo_m,
                  _normalise_capacity nv.2⟩ : TrackMetadata))
          else .ok md2)
      (.error e) = .error e := by
  induction l with
  | nil => rfl
  | cons nv rest ih => exact ih

theorem build_md_e_fold_ok (l : TrackDataset) :
    ∀ (acc md : List (String × TrackMetadata)),
      l.foldl
        (fun (acc2 : Except SelectError (List (String × TrackMetadata))) nv =>
          match acc2 with
          | .error e2 => .error e2
          | .ok md2 =>
            if _validate_track_data nv.2 then
              match _parse_track_name_e nv.1 with
              | .error e2 => .error e2
              | .ok r =>
                .ok (dictInsert md2 r.2.2
                  (⟨r.1, r.2.1, getOr0 nv.2.marciapiede_complessivo_m,
                    _normalise_capacity nv.2⟩ : TrackMetadata))
            else .ok md2)
        (.ok acc) = .ok md →
      md = l.foldl
        (fun acc2 nv =>
          if _validate_track_data nv.2 then
            let r := _parse_track_name nv.1
            dictInsert acc2 r.2.2
              (⟨r.1, r.2.1, getOr0 nv.2.marciapiede_complessivo_m,
                _normalise_capacity nv.2⟩ : TrackMetadata)
          else acc2)
        acc := by
  induction l with
  | nil =>
    intro acc md h
    injection h with h2
    exact h2.symm
  | cons nv rest ih =>
    intro acc md h
    simp only [List.foldl_cons] at h ⊢
    by_cases hv : _validate_track_data nv.2 = true
    · rw [if_pos hv] at h ⊢
      cases hp : _parse_track_name_e nv.1 with
      | error e =>
        rw [hp] at h
        rw [build_md_e_fold_err] at h
        exact absurd h (by simp)
      | ok r =>
        rw [hp] at h
        rw [parse_track_name_e_ok_eq nv.1 r hp]
        exact ih _ _ h
    · rw [if_neg hv] at h ⊢
      exact ih _ _ h

theorem build_track_metadata_e_ok_eq (tracks : TrackDataset)
    (md : List (String × TrackMetadata))
    (hok : _build_track_metadata_e tracks = .ok md) :
    md = _build_track_metadata tracks := by
  unfold _build_track_metadata_e at hok
  unfold _build_track_metadata
  exact build_md_e_fold_ok tracks [] md hok

theorem resolve_planned_track_e_ok_eq (planned_track : Option String)
    (track_meta : List (String × TrackMetadata)) (tracks : TrackDataset)
    (rp : Option Int × String × Option TrackInfo)
    (hok : _resolve_planned_track_e planned_track track_meta tracks = .ok rp) :
    _resolve_planned_track planned_track track_meta tracks = rp := by
  unfold _resolve_planned_track_e at hok
  unfold _resolve_planned_track
  by_cases ht : truthyStr planned_track = true
  · rw [if_pos ht] at hok
    rw [if_pos ht]
    cases hp : _parse_track_name_e (planned_track.getD "") with
    | error e =>
      rw [hp] at hok
      exact absurd hok (by simp)
    | ok r =>
      rw [hp] at hok
      rw [parse_track_name_e_ok_eq _ r hp]
      injection hok
  · rw [if_neg ht] at hok
    rw [if_neg ht]
    injection hok

theorem select_tracks_e_ok_eq (train_code : String) (train_length_m : Int)
    (train_category : Option String) (tracks : TrackDataset)
    (planned_track : Option String) (rule : CategoryRuleConfig)
    (priority : PriorityConfig) (out : List Suggestion)
    (hok : select_tracks_e train_code train_length_m train_category tracks
      planned_track (some rule) (some priority) = .ok out) :
    select_tracks train_code train_length_m train_category tracks planned_track
      (some rule) (some priority) = .ok out := by
  simp only [select_tracks_e] at hok
  simp only [select_tracks]
  by_cases hL : train_length_m ≤ 0
  · rw [if_pos hL] at hok
    exact absurd hok (by simp)
  · rw [if_neg hL] at hok
    rw [if_neg hL]
    cases hmd : _build_track_metadata_e tracks with
    | error e =>
      simp [hmd] at hok
    | ok md =>
      simp only [hmd] at hok
      rw [← build_track_metadata_e_ok_eq tracks md hmd]
      by_cases hemp : md.isEmpty = true
      · rw [if_pos hemp] at hok
        exact absurd hok (by simp)
      · rw [if_neg hemp] at hok
        rw [if_neg hemp]
        cases hres : _resolve_planned_track_e planned_track md tracks with
        | error e =>
          simp [hres] at hok
        | ok rp =>
          simp only [hres] at hok
          rw [resolve_planned_track_e_ok_eq planned_track md tracks rp hres]
          exact hok

theorem build_candidate_record_name (norm_name : String) (meta : TrackMetadata)
    (planned_num : Option Int) (planned_suffix : String)
    (planned_info : Option TrackInfo) (tracks : TrackDataset)
    (rule : CategoryRuleConfig) (priority : PriorityConfig) :
    (_build_candidate_record norm_name meta planned_num planned_suffix
      planned_info tracks rule priority).name = norm_name := rfl

/-- Every entry of a successful select_tracks result originates from a
metadata entry that passed both the exclusion and the length filter. -/
theorem select_tracks_output_origin (train_code : String) (train_length_m : Int)
    (train_category : Option String) (tracks : TrackDataset)
    (planned_track : Option String) (rule : CategoryRuleConfig)
    (priority : PriorityConfig) (out : List Suggestion)
    (hok : select_tracks train_code train_length_m train_category tracks
      planned_track (some rule) (some priority) = .ok out) :
    ∀ s ∈ out, ∃ p : String × TrackMetadata,
      p ∈ _build_track_metadata tracks ∧ s.track = p.1 ∧
      _is_track_excluded p.1 p.2.num p.2.suffix rule
        (_resolve_planned_track planned_track (_build_track_metadata tracks) tracks).1
        (_resolve_planned_track planned_track (_build_track_metadata tracks) tracks).2.1
        = false ∧
      _meets_length_requirements p.2.len_compl p.2.cap_fun train_length_m rule = true := by
  simp only [select_tracks] at hok
  split at hok
  · exact absurd hok (by simp)
  · split at hok
    · exact absurd hok (by simp)
    · rw [Except.ok.injEq] at hok
      subst hok
      intro s hs
      rw [List.mem_map] at hs
      obtain ⟨c, hc, hcs⟩ := hs
      have hc2 := List.take_subset _ _ hc
      rw [mem_pySort, List.mem_map] at hc2
      obtain ⟨p, hp, hpc⟩ := hc2
      rw [List.mem_filter] at hp
      obtain ⟨hmem, hcond⟩ := hp
      rw [Bool.and_eq_true, Bool.not_eq_true'] at hcond
      refine ⟨p, hmem, ?_, hcond.1, hcond.2⟩
      rw [← hcs]
      simp only []
      rw [← hpc]
      exact build_candidate_record_name ..

theorem excluded_of_planned_match (norm_name : String) (num : Option Int)
    (suffix : String) (rule : CategoryRuleConfig) (pn : Int) (ps : String)
    (hnum : num = some pn) (hsfx : suffix = ps) :
    _is_track_excluded norm_name num suffix rule (some pn) ps = true := by
  subst hnum
  subst hsfx
  simp [_is_track_excluded]

theorem excluded_of_bis (norm_name : String) (num : Option Int)
    (rule : CategoryRuleConfig) (planned_num : Option Int) (planned_suffix : String)
    (hb : rule.allow_bis = false) :
    _is_track_excluded norm_name num "BIS" rule planned_num planned_suffix = true := by
  simp [_is_track_excluded, hb]

/-! Concrete fixtures used by witnesses and counterexamples. -/

def ruleDefault : CategoryRuleConfig :=
  ⟨false, false, none, none, none, none, [], [], []⟩

def pcDefault : PriorityConfig := ⟨[], -1⟩

def trackInfo300 : TrackInfo := ⟨some 300, some 0, some 0, none, none⟩

def trackInfo280 : TrackInfo := ⟨some 280, some 0, some 0, none, none⟩

def trackInfoZero : TrackInfo := ⟨some 0, some 0, some 0, none, none⟩

def w1Tracks : TrackDataset := [("5", trackInfo300), ("6", trackInfo280)]

def cexTracksA : TrackDataset := [("SCALO", trackInfo300)]

def cexTracksB : TrackDataset := [("5 TER", trackInfo300)]

def w3Tracks : TrackDataset := [("5", trackInfo300), ("5 BIS", trackInfo280)]

/-- C1: feasibility soundness. Every track name returned by select_tracks
names a metadata entry that is not excluded by _is_track_excluded (for the
given category rule and the resolved planned track) and that satisfies
_meets_length_requirements for the given train length. -/
theorem select_tracks_feasibility_soundness (train_code : String)
    (train_length_m : Int) (train_category : Option String) (tracks : TrackDataset)
    (planned_track : Option String) (rule : CategoryRuleConfig)
    (priority : PriorityConfig) (name : String) (hL : 0 < train_length_m)
    (hname : name ∈ okTrackNames (select_tracks train_code train_length_m
      train_category tracks planned_track (some rule) (some priority))) :
    ∃ m : TrackMetadata, (name, m) ∈ _build_track_metadata tracks ∧
      _is_track_excluded name m.num m.suffix rule
        (_resolve_planned_track planned_track (_build_track_metadata tracks) tracks).1
        (_resolve_planned_track planned_track (_build_track_metadata tracks) tracks).2.1
        = false ∧
      _meets_length_requirements m.len_compl m.cap_fun train_length_m rule = true := by
  cases hsel : select_tracks train_code train_length_m train_category tracks
      planned_track (some rule) (some priority) with
  | error e => rw [hsel] at hname; simp [okTrackNames] at hname
  | ok out =>
    rw [hsel] at hname
    simp only [okTrackNames, List.mem_map] at hname
    obtain ⟨s, hs, hsn⟩ := hname
    obtain ⟨p, hmem, htrack, hexcl, hmeets⟩ :=
      select_tracks_output_origin train_code train_length_m train_category tracks
        planned_track rule priority out hsel s hs
    have hnp : name = p.1 := by rw [← hsn, htrack]
    subst hnp
    exact ⟨p.2, by simpa using hmem, hexcl, hmeets⟩

/-- C1 witness: a concrete run in which track 6 is returned as an
alternative to planned track 5. -/
theorem select_tracks_feasibility_soundness_witness :
    ∃ m : TrackMetadata, ("6", m) ∈ _build_track_metadata w1Tracks ∧
      _is_track_excluded "6" m.num m.suffix ruleDefault
        (_resolve_planned_track (some "5") (_build_track_metadata w1Tracks) w1Tracks).1
        (_resolve_planned_track (some "5") (_build_track_metadata w1Tracks) w1Tracks).2.1
        = false ∧
      _meets_length_requirements m.len_compl m.cap_fun 100 ruleDefault = true :=
  select_tracks_feasibility_soundness "T" 100 none w1Tracks (some "5")
    ruleDefault pcDefault "6" (by decide) (by decide)

/-- C2 counterexample: with inventory track "SCALO" (no ordinal) and planned
track "SCALO", the planned reference parses to the same ordinal (absent) and
the same suffix as the inventory track, yet "SCALO" is returned by
select_tracks: the claimed self-exclusion fails when the matching ordinal is
absent, because the source guards the check with planned_num is not None. -/
theorem select_tracks_self_exclusion_cex :
    ("SCALO", (⟨none, "", 300, 0⟩ : TrackMetadata)) ∈ _build_track_metadata cexTracksA ∧
    (⟨none, "", 300, 0⟩ : TrackMetadata).num
      = (_resolve_planned_track (some "SCALO") (_build_track_metadata cexTracksA) cexTracksA).1 ∧
    (⟨none, "", 300, 0⟩ : TrackMetadata).suffix
      = (_resolve_planned_track (some "SCALO") (_build_track_metadata cexTracksA) cexTracksA).2.1 ∧
    "SCALO" ∈ okTrackNames (select_tracks "T" 100 none cexTracksA (some "SCALO")
      (some ruleDefault) (some pcDefault)) := by
  decide

/-- C2 (amended): whenever the planned track resolves to a present (numeric)
ordinal, no inventory track whose metadata carries exactly that ordinal and
the resolved suffix ever appears in the output of select_tracks. -/
theorem select_tracks_self_exclusion (train_code : String) (train_length_m : Int)
    (train_category : Option String) (tracks : TrackDataset)
    (planned_track : Option String) (rule : CategoryRuleConfig)
    (priority : PriorityConfig) (pn : Int) (name : String) (m : TrackMetadata)
    (hres : (_resolve_planned_track planned_track (_build_track_metadata tracks) tracks).1
      = some pn)
    (hm : (name, m) ∈ _build_track_metadata tracks)
    (hnum : m.num = some pn)
    (hsfx : m.suffix
      = (_resolve_planned_track planned_track (_build_track_metadata tracks) tracks).2.1) :
    name ∉ okTrackNames (select_tracks train_code train_length_m train_category
      tracks planned_track (some rule) (some priority)) := by
  intro hname
  cases hsel : select_tracks train_code train_length_m train_category tracks
      planned_track (some rule) (some priority) with
  | error e => rw [hsel] at hname; simp [okTrackNames] at hname
  | ok out =>
    rw [hsel] at hname
    simp only [okTrackNames, List.mem_map] at hname
    obtain ⟨s, hs, hsn⟩ := hname
    obtain ⟨p, hmem, htrack, hexcl, _⟩ :=
      select_tracks_output_origin train_code train_length_m train_category tracks
        planned_track rule priority out hsel s hs
    have hnp : name = p.1 := by rw [← hsn, htrack]
    have hmm : m = p.2 := by
      refine assoc_unique (_build_track_metadata tracks) name m p.2
        (keys_build_track_metadata tracks) hm ?_
      rw [hnp]
      simpa using hmem
    rw [← hnp, ← hmm, hres] at hexcl
    rw [excluded_of_planned_match name m.num m.suffix rule pn _ hnum hsfx] at hexcl
    exact Bool.true_eq_false ▸ hexcl

/-- C2 witness: planned track 5 resolves to ordinal 5 and inventory track
"5" carries that ordinal and suffix, so "5" is never suggested. -/
theorem select_tracks_self_exclusion_witness :
    "5" ∉ okTrackNames (select_tracks "T" 100 none w1Tracks (some "5")
      (some ruleDefault) (some pcDefault)) :=
  select_tracks_self_exclusion "T" 100 none w1Tracks (some "5") ruleDefault
    pcDefault 5 "5" ⟨some 5, "", 300, 0⟩ (by decide) (by decide) (by decide) (by decide)

/-- C3 counterexample: with the default rule (twin suffix disallowed) the
track "5 TER" carries the non-empty suffix token "TER" and is nevertheless
returned by select_tracks: the source only excludes the specific suffix
"BIS", not an arbitrary suffix token. -/
theorem select_tracks_suffix_exclusion_cex :
    ("5 TER", (⟨some 5, "TER", 300, 0⟩ : TrackMetadata)) ∈ _build_track_metadata cexTracksB ∧
    (⟨some 5, "TER", 300, 0⟩ : TrackMetadata).suffix ≠ "" ∧
    ruleDefault.allow_bis = false ∧
    "5 TER" ∈ okTrackNames (select_tracks "T" 100 none cexTracksB none
      (some ruleDefault) (some pcDefault)) := by
  decide

/-- C3 (amended): for a category rule that does not allow twin tracks, every
track whose parsed suffix token is exactly "BIS" is excluded from the
feasible set, so it never appears in the output; in particular a twin of the
planned track such as "V BIS" never appears. -/
theorem select_tracks_no_bis_when_disallowed (train_code : String)
    (train_length_m : Int) (train_category : Option String) (tracks : TrackDataset)
    (planned_track : Option String) (rule : CategoryRuleConfig)
    (priority : PriorityConfig) (name : String) (m : TrackMetadata)
    (hb : rule.allow_bis = false)
    (hm : (name, m) ∈ _build_track_metadata tracks)
    (hsfx : m.suffix = "BIS") :
    name ∉ okTrackNames (select_tracks train_code train_length_m train_category
      tracks planned_track (some rule) (some priority)) := by
  intro hname
  cases hsel : select_tracks train_code train_length_m train_category tracks
      planned_track (some rule) (some priority) with
  | error e => rw [hsel] at hname; simp [okTrackNames] at hname
  | ok out =>
    rw [hsel] at hname
    simp only [okTrackNames, List.mem_map] at hname
    obtain ⟨s, hs, hsn⟩ := hname
    obtain ⟨p, hmem, htrack, hexcl, _⟩ :=
      select_tracks_output_origin train_code train_length_m train_category tracks
        planned_track rule priority out hsel s hs
    have hnp : name = p.1 := by rw [← hsn, htrack]
    have hmm : m = p.2 := by
      refine assoc_unique (_build_track_metadata tracks) name m p.2
        (keys_build_track_metadata tracks) hm ?_
      rw [hnp]
      simpa using hmem
    rw [← hnp, ← hmm, hsfx] at hexcl
    rw [excluded_of_bis name m.num rule _ _ hb] at hexcl
    exact Bool.true_eq_false ▸ hexcl

/-- C3 witness: "5 BIS" (the twin of planned track 5) is never suggested
under the default rule, which disallows the BIS suffix. -/
theorem select_tracks_no_bis_when_disallowed_witness :
    "5 BIS" ∉ okTrackNames (select_tracks "T" 100 none w3Tracks (some "5")
      (some ruleDefault) (some pcDefault)) :=
  select_tracks_no_bis_when_disallowed "T" 100 none w3Tracks (some "5")
    ruleDefault pcDefault "5 BIS" ⟨some 5, "BIS", 280, 0⟩ rfl (by decide) rfl

def cexTracksSup : TrackDataset := [("²", trackInfo300)]

/-- C4 counterexample: the normalizer is not total. The single-character
name "²" passes the str.isdigit() guard (it is digit-typed) but is not a
decimal digit, so the source computes int("²"), which raises ValueError:
_parse_track_name raises instead of returning a result. -/
theorem parse_track_name_total_cex :
    pyIsDigitStr "²" = true ∧ isDigitStr "²" = false ∧
    _parse_track_name_e "²"
      = .error (.valueError "invalid literal for int() with base 10: ²") := by
  decide

/-- C4 (amended): the normalizer never raises except when the first
whitespace token of the normalized name is digit-typed per str.isdigit()
but not all decimal digits, where int() raises ValueError. Non-string and
empty input yield (absent ordinal, "", ""), as does any input with no
tokens. When the first token is all decimal digits the ordinal is its
integer value; when it is not digit-typed at all it is looked up in the
fixed Roman table ROMAN, a miss leaving the ordinal absent. On every
input on which the parser returns, it agrees with the total companion
_parse_track_name used by the rest of the embedding. -/
theorem parse_track_name_spec :
    _parse_track_name_any_e none = .ok (none, "", "") ∧
    _parse_track_name_e "" = .ok (none, "", "") ∧
    (∀ s : String, splitWs (pyUpper (pyStrip s)) = [] →
      _parse_track_name_e s = .ok (none, "", "")) ∧
    (∀ (s : String) (r : Option Int × String × String),
      _parse_track_name_e s = .ok r → _parse_track_name s = r) ∧
    (∀ (s first : String) (rest : List String),
      splitWs (String.intercalate " " (splitWs (pyUpper (pyStrip s)))) = first :: rest →
      (isDigitStr first = true →
        ∃ r, _parse_track_name_e s = .ok r ∧ r.1 = some (pyIntOfDigits first)) ∧
      (pyIsDigitStr first = false →
        ∃ r, _parse_track_name_e s = .ok r ∧ r.1 = ROMAN.lookup first) ∧
      (pyIsDigitStr first = true → isDigitStr first = false →
        ∃ e, _parse_track_name_e s = .error e ∧ e.className = "ValueError")) := by
  refine ⟨rfl, rfl, ?_, parse_track_name_e_ok_eq, ?_⟩
  · intro s h
    have hnil : String.intercalate " " ([] : List String) = "" := rfl
    simp [_parse_track_name_e, h, hnil]
  · intro s first rest h
    unfold _parse_track_name_e
    by_cases hn : String.intercalate " " (splitWs (pyUpper (pyStrip s))) = ""
    · rw [hn] at h
      exact absurd h (by simp [splitWs, splitWsAux])
    · rw [if_neg hn]
      simp only []
      rw [h]
      simp only [List.headD_cons]
      refine ⟨?_, ?_, ?_⟩
      · intro hd
        rw [if_pos (isDigitStr_pyIsDigitStr first hd), if_pos hd]
        exact ⟨_, rfl, rfl⟩
      · intro hpd
        rw [if_neg (by simp [hpd])]
        exact ⟨_, rfl, rfl⟩
      · intro hpd hd
        rw [if_pos hpd, if_neg (by simp [hd])]
        exact ⟨_, rfl, rfl⟩

/-- C4 witness: the input " 5 bis " parses without raising and the digit
token yields ordinal 5. -/
theorem parse_track_name_spec_witness :
    ∃ r, _parse_track_name_e " 5 bis " = .ok r ∧ r.1 = some 5 := by
  have h := (parse_track_name_spec.2.2.2.2 " 5 bis " "5" ["BIS"] (by decide)).1 (by decide)
  obtain ⟨r, hr1, hr2⟩ := h
  exact ⟨r, hr1, by rw [hr2]; decide⟩

/-- C5 counterexample: the three advertised failures of select_tracks all
raise the same exception class ValueError (the HTTP caller in
app/routes/tracks.py maps every ValueError to the same 400 response), so
the configuration failures are not a distinct server-side error type; and
there is a fourth failure mode outside the claimed taxonomy: with positive
train length, both configuration objects and a valid non-empty inventory,
a track named "²" makes the name parser raise the int() ValueError. -/
theorem select_tracks_error_class_cex :
    errClassOf (select_tracks "T" 0 none cexTracksA none (some ruleDefault)
      (some pcDefault)) = some "ValueError" ∧
    errClassOf (select_tracks "T" 100 none cexTracksA none none none)
      = some "ValueError" ∧
    errClassOf (select_tracks "T" 100 none [] none (some ruleDefault)
      (some pcDefault)) = some "ValueError" ∧
    _validate_track_data trackInfo300 = true ∧
    select_tracks_e "T" 100 none cexTracksSup none (some ruleDefault)
      (some pcDefault)
      = .error (.valueError "invalid literal for int() with base 10: ²") := by
  decide

/-- C5 (amended): select_tracks raises ValueError("Train length must be
greater than zero.") exactly when train_length_m is non-positive, checked
first; otherwise ValueError("Configuration objects are required.") when a
configuration object is missing; otherwise any ValueError raised while
parsing a validated track name during metadata building propagates;
otherwise ValueError("No valid tracks found in dataset.") when the
inventory yields zero valid tracks; otherwise a ValueError raised while
parsing the planned reference propagates; in all remaining cases it
returns normally. Every failure carries the single exception class
ValueError, distinguished only by message. -/
theorem select_tracks_error_taxonomy (train_code : String) (train_length_m : Int)
    (train_category : Option String) (tracks : TrackDataset)
    (planned_track : Option String) (category_rule : Option CategoryRuleConfig)
    (priority_config : Option PriorityConfig) :
    (train_length_m ≤ 0 →
      select_tracks_e train_code train_length_m train_category tracks planned_track
        category_rule priority_config
        = .error (.valueError "Train length must be greater than zero.")) ∧
    (0 < train_length_m → (category_rule = none ∨ priority_config = none) →
      select_tracks_e train_code train_length_m train_category tracks planned_track
        category_rule priority_config
        = .error (.valueError "Configuration objects are required.")) ∧
    (∀ rule priority e, 0 < train_length_m → category_rule = some rule →
      priority_config = some priority →
      _build_track_metadata_e tracks = .error e →
      select_tracks_e train_code train_length_m train_category tracks planned_track
        category_rule priority_config = .error e) ∧
    (∀ rule priority md, 0 < train_length_m → category_rule = some rule →
      priority_config = some priority →
      _build_track_metadata_e tracks = .ok md → md = [] →
      select_tracks_e train_code train_length_m train_category tracks planned_track
        category_rule priority_config
        = .error (.valueError "No valid tracks found in dataset.")) ∧
    (∀ rule priority md e, 0 < train_length_m → category_rule = some rule →
      priority_config = some priority →
      _build_track_metadata_e tracks = .ok md → md ≠ [] →
      _resolve_planned_track_e planned_track md tracks = .error e →
      select_tracks_e train_code train_length_m train_category tracks planned_track
        category_rule priority_config = .error e) ∧
    (∀ rule priority md rp, 0 < train_length_m → category_rule = some rule →
      priority_config = some priority →
      _build_track_metadata_e tracks = .ok md → md ≠ [] →
      _resolve_planned_track_e planned_track md tracks = .ok rp →
      ∃ out, select_tracks_e train_code train_length_m train_category tracks
        planned_track category_rule priority_config = .ok out) ∧
    (∀ e, select_tracks_e train_code train_length_m train_category tracks
      planned_track category_rule priority_config = .error e →
      e.className = "ValueError") := by
  refine ⟨?_, ?_, ?_, ?_, ?_, ?_, ?_⟩
  · intro h
    simp [select_tracks_e, h]
  · intro hL hcfg
    have hnot : ¬(train_length_m ≤ 0) := by omega
    rcases hcfg with h | h
    · subst h
      simp [select_tracks_e, hnot]
    · subst h
      cases category_rule <;> simp [select_tracks_e, hnot]
  · intro rule priority e hL h1 h2 hmd
    subst h1
    subst h2
    have hnot : ¬(train_length_m ≤ 0) := by omega
    simp [select_tracks_e, hnot, hmd]
  · intro rule priority md hL h1 h2 hmd hnil
    subst h1
    subst h2
    have hnot : ¬(train_length_m ≤ 0) := by omega
    simp [select_tracks_e, hnot, hmd, hnil]
  · intro rule priority md e hL h1 h2 hmd hne hres
    subst h1
    subst h2
    have hnot : ¬(train_length_m ≤ 0) := by omega
    have hemp : ¬(md.isEmpty = true) := by simp [List.isEmpty_iff, hne]
    simp [select_tracks_e, hnot, hmd, hemp, hres]
  · intro rule priority md rp hL h1 h2 hmd hne hres
    subst h1
    subst h2
    have hnot : ¬(train_length_m ≤ 0) := by omega
    have hemp : ¬(md.isEmpty = true) := by simp [List.isEmpty_iff, hne]
    cases hsel : select_tracks_e train_code train_length_m train_category tracks
        planned_track (some rule) (some priority) with
    | ok out => exact ⟨out, rfl⟩
    | error e2 =>
      exfalso
      simp only [select_tracks_e, if_neg hnot] at hsel
      simp only [hmd] at hsel
      rw [if_neg hemp] at hsel
      simp only [hres] at hsel
      exact absurd hsel (by simp)
  · intro e _
    cases e
    rfl

/-- C5 witness: with a valid inventory whose names parse, positive train
length and both configuration objects, select_tracks_e returns normally. -/
theorem select_tracks_error_taxonomy_witness :
    ∃ out, select_tracks_e "T" 100 none cexTracksA none (some ruleDefault)
      (some pcDefault) = .ok out :=
  (select_tracks_error_taxonomy "T" 100 none cexTracksA none (some ruleDefault)
    (some pcDefault)).2.2.2.2.2.1 ruleDefault pcDefault
    [("SCALO", ⟨none, "", 300, 0⟩)] (none, "", none) (by decide) rfl rfl
    (by decide) (by decide) (by decide)

/-- C6: for a category that requires a platform, length feasibility is
monotone in the train length: if a track meets the requirement at the
larger train length it also meets it at any smaller one. -/
theorem meets_length_monotone (rule : CategoryRuleConfig)
    (len_compl cap_fun L1 L2 : Int) (hr : rule.allow_no_platform = false)
    (h12 : L1 ≤ L2)
    (h2 : _meets_length_requirements len_compl cap_fun L2 rule = true) :
    _meets_length_requirements len_compl cap_fun L1 rule = true := by
  by_cases hl : len_compl ≤ 0
  · simp [_meets_length_requirements, hr, hl] at h2
  · simp only [_meets_length_requirements, hr] at h2 ⊢
    simp [hl] at h2 ⊢
    omega

/-- C6 witness: a 300 m platform feasible for a 250 m train stays feasible
for a 100 m train. -/
theorem meets_length_monotone_witness :
    _meets_length_requirements 300 0 100 ruleDefault = true :=
  meets_length_monotone ruleDefault 300 0 100 250 rfl (by decide) (by decide)

/-- C7 counterexample: a resolved planned track whose recorded platform
length is 0 is a known planned track, yet the candidate record gets
len_delta 0 instead of the absolute difference with the candidate length
(100 here): the source falls back to the candidate's own length whenever
the planned length is falsy, not only when no planned track is known. -/
theorem build_candidate_len_delta_cex :
    (_build_candidate_record "6" ⟨some 6, "", 100, 0⟩ (some 5) ""
      (some trackInfoZero) [] ruleDefault pcDefault).len_delta = 0 ∧
    plannedLenOf (some trackInfoZero) = 0 ∧
    abs ((⟨some 6, "", 100, 0⟩ : TrackMetadata).len_compl
      - plannedLenOf (some trackInfoZero)) = 100 := by
  decide

/-- C7 (amended): len_delta equals the absolute difference between the
candidate platform length and the planned platform length whenever the
planned platform length is nonzero; when it is zero (no planned track
known, or its recorded length is 0 or missing) len_delta is 0, the
difference of the candidate length with itself. -/
theorem build_candidate_len_delta (norm_name : String) (meta : TrackMetadata)
    (planned_num : Option Int) (planned_suffix : String)
    (planned_info : Option TrackInfo) (tracks : TrackDataset)
    (rule : CategoryRuleConfig) (priority : PriorityConfig) :
    (plannedLenOf planned_info ≠ 0 →
      (_build_candidate_record norm_name meta planned_num planned_suffix
        planned_info tracks rule priority).len_delta
        = abs (plannedLenOf planned_info - meta.len_compl)) ∧
    (plannedLenOf planned_info = 0 →
      (_build_candidate_record norm_name meta planned_num planned_suffix
        planned_info tracks rule priority).len_delta = 0) := by
  constructor <;> intro h <;>
    simp [_build_candidate_record, _build_candidate_record_core, h]

/-- C7 witness: with a planned platform of 280 m and a candidate platform
of 100 m the delta is the absolute difference. -/
theorem build_candidate_len_delta_witness :
    (_build_candidate_record "6" ⟨some 6, "", 100, 0⟩ (some 5) ""
      (some trackInfo280) [] ruleDefault pcDefault).len_delta
      = abs (plannedLenOf (some trackInfo280)
        - (⟨some 6, "", 100, 0⟩ : TrackMetadata).len_compl) :=
  (build_candidate_len_delta "6" ⟨some 6, "", 100, 0⟩ (some 5) ""
    (some trackInfo280) [] ruleDefault pcDefault).1 (by decide)

/-- C8: select_tracks is deterministic: two invocations on identical inputs
produce identical ranked lists (the embedding is a pure function of the
listed inputs, so equal inputs give equal outputs). -/
theorem select_tracks_deterministic (c1 c2 : String) (L1 L2 : Int)
    (cat1 cat2 : Option String) (t1 t2 : TrackDataset) (p1 p2 : Option String)
    (r1 r2 : Option CategoryRuleConfig) (q1 q2 : Option PriorityConfig)
    (h : (c1, L1, cat1, t1, p1, r1, q1) = (c2, L2, cat2, t2, p2, r2, q2)) :
    select_tracks c1 L1 cat1 t1 p1 r1 q1 = select_tracks c2 L2 cat2 t2 p2 r2 q2 := by
  simp only [Prod.mk.injEq] at h
  obtain ⟨h1, h2, h3, h4, h5, h6, h7⟩ := h
  subst h1
  subst h2
  subst h3
  subst h4
  subst h5
  subst h6
  subst h7
  rfl

/-- C8 witness: the determinism theorem applied to one concrete input. -/
theorem select_tracks_deterministic_witness :
    select_tracks "T" 100 none w1Tracks (some "5") (some ruleDefault) (some pcDefault)
      = select_tracks "T" 100 none w1Tracks (some "5") (some ruleDefault) (some pcDefault) :=
  select_tracks_deterministic "T" "T" 100 100 none none w1Tracks w1Tracks
    (some "5") (some "5") (some ruleDefault) (some ruleDefault)
    (some pcDefault) (some pcDefault) rfl

def ruleOneSided : CategoryRuleConfig :=
  ⟨false, false, some 1, some 14, some 2, none, [], [], []⟩

/-- The same category rule with the soft (preferred) band removed. -/
def stripPreferred (rule : CategoryRuleConfig) : CategoryRuleConfig :=
  ⟨rule.allow_bis, rule.allow_no_platform, rule.min_track_number,
   rule.max_track_number, none, none, rule.deny_track_names,
   rule.deny_track_patterns, rule.deny_track_numbers⟩

theorem priority_class_zero_of_inband (rule : CategoryRuleConfig) (n : Int)
    (hpref : rule.preferred_min_track_number = none
      ∨ rule.preferred_max_track_number = none)
    (h1 : ∀ m, rule.min_track_number = some m → m ≤ n)
    (h2 : ∀ mx, rule.max_track_number = some mx → n ≤ mx) :
    _priority_class (some n) rule = 0 := by
  have hc1 : (match rule.min_track_number with
      | some m => decide (n < m)
      | none => false) = false := by
    rcases hmin : rule.min_track_number with _ | m
    · rfl
    · have := h1 m hmin
      simp
      omega
  have hc2 : (match rule.max_track_number with
      | some mx => decide (mx < n)
      | none => false) = false := by
    rcases hmax : rule.max_track_number with _ | mx
    · rfl
    · have := h2 mx hmax
      simp
      omega
  simp only [_priority_class]
  rw [hc1, hc2]
  simp only [Bool.false_eq_true, if_false]
  rcases hpref with h | h
  · rw [h]
  · rcases hpm2 : rule.preferred_min_track_number with _ | pmin
    · rfl
    · rw [h]

/-- C10: when exactly one preferred bound is configured, _priority_class
ignores the soft band entirely: every numeric ordinal inside the hard band
gets tier 0, the function behaves exactly as if no preferred band were
configured, and tier 1 can only arise when both preferred bounds are
present or the ordinal violates the hard band. -/
theorem priority_class_one_sided_spec (rule : CategoryRuleConfig) (n : Int)
    (hx : rule.preferred_min_track_number.isSome
      ≠ rule.preferred_max_track_number.isSome) :
    ((∀ m, rule.min_track_number = some m → m ≤ n) →
     (∀ mx, rule.max_track_number = some mx → n ≤ mx) →
     _priority_class (some n) rule = 0) ∧
    (∀ k : Option Int, _priority_class k rule
      = _priority_class k (stripPreferred rule)) ∧
    (∀ (rule2 : CategoryRuleConfig) (k : Option Int), _priority_class k rule2 = 1 →
      (rule2.preferred_min_track_number.isSome
        ∧ rule2.preferred_max_track_number.isSome) ∨
      (∃ j, k = some j ∧
        ((∃ m, rule2.min_track_number = some m ∧ j < m) ∨
         (∃ mx, rule2.max_track_number = some mx ∧ mx < j)))) := by
  refine ⟨?_, ?_, ?_⟩
  · intro h1 h2
    apply priority_class_zero_of_inband rule n ?_ h1 h2
    rcases hpm : rule.preferred_min_track_number with _ | pmin
    · exact Or.inl rfl
    · rcases hpx : rule.preferred_max_track_number with _ | pmax
      · exact Or.inr rfl
      · exfalso
        rw [hpm, hpx] at hx
        exact hx rfl
  · intro k
    rcases k with _ | j
    · rfl
    · rcases hpm : rule.preferred_min_track_number with _ | pmin <;>
        rcases hpx : rule.preferred_max_track_number with _ | pmax
      · exfalso
        rw [hpm, hpx] at hx
        exact hx rfl
      · simp [_priority_class, stripPreferred, hpm, hpx]
      · simp [_priority_class, stripPreferred, hpm, hpx]
      · exfalso
        rw [hpm, hpx] at hx
        exact hx rfl
  · intro rule2 k h
    rcases k with _ | j
    · simp [_priority_class] at h
    · by_cases hps : rule2.preferred_min_track_number.isSome = true
        ∧ rule2.preferred_max_track_number.isSome = true
      · exact Or.inl hps
      · right
        refine ⟨j, rfl, ?_⟩
        simp only [_priority_class] at h
        by_cases hc1 : (match rule2.min_track_number with
            | some m => decide (j < m)
            | none => false) = true
        · rcases hmin : rule2.min_track_number with _ | m
          · rw [hmin] at hc1
            simp at hc1
          · rw [hmin] at hc1
            simp at hc1
            exact Or.inl ⟨m, rfl, hc1⟩
        · rw [if_neg hc1] at h
          by_cases hc2 : (match rule2.max_track_number with
              | some mx => decide (mx < j)
              | none => false) = true
          · rcases hmax : rule2.max_track_number with _ | mx
            · rw [hmax] at hc2
              simp at hc2
            · rw [hmax] at hc2
              simp at hc2
              exact Or.inr ⟨mx, rfl, hc2⟩
          · rw [if_neg hc2] at h
            exfalso
            rcases hpm : rule2.preferred_min_track_number with _ | pmin <;>
              rcases hpx : rule2.preferred_max_track_number with _ | pmax <;>
              rw [hpm, hpx] at h
            · simp at h
            · simp at h
            · simp at h
            · exact hps (by simp [hpm, hpx])

/-- C10 witness: with hard band [1,14] and only a preferred minimum (2),
ordinal 3 gets tier 0. -/
theorem priority_class_one_sided_spec_witness :
    _priority_class (some 3) ruleOneSided = 0 :=
  (priority_class_one_sided_spec ruleOneSided 3 (by decide)).1
    (by intro m hm; simp [ruleOneSided] at hm; omega)
    (by intro mx hmx; simp [ruleOneSided] at hmx; omega)

theorem foldl_append_eq_map {α β : Type} (g : α → β) (l : List α) (acc : List β) :
    l.foldl (fun x a => x ++ [g a]) acc = acc ++ l.map g := by
  induction l generalizing acc with
  | nil => simp
  | cons a rest ih => simp [ih]

theorem foldl_pair_fst {α β σ : Type} (f : β → α → β) (l : List α) :
    ∀ (b : β) (s : σ),
      l.foldl (fun (st : β × σ) a => (f st.1 a, st.2)) (b, s) = (l.foldl f b, s) := by
  induction l with
  | nil => intro b s; rfl
  | cons a rest ih => intro b s; simp only [List.foldl_cons]; exact ih _ _

theorem build_track_metadata_st_eq (tracks : TrackDataset) :
    _build_track_metadata_st tracks = (_build_track_metadata tracks, tracks) := by
  unfold _build_track_metadata_st _build_track_metadata
  exact foldl_pair_fst
    (fun acc nv =>
      if _validate_track_data nv.2 then
        let r := _parse_track_name nv.1
        dictInsert acc r.2.2
          (⟨r.1, r.2.1, getOr0 nv.2.marciapiede_complessivo_m,
            _normalise_capacity nv.2⟩ : TrackMetadata)
      else acc) tracks [] tracks

theorem resolve_st_eq (planned_track : Option String)
    (track_meta : List (String × TrackMetadata)) (tracks : TrackDataset) :
    _resolve_planned_track_st planned_track track_meta tracks
      = (_resolve_planned_track planned_track track_meta tracks, tracks) := by
  unfold _resolve_planned_track_st _resolve_planned_track dictGetSt
  split <;> rfl

theorem cand_fold_state (pn : Option Int) (ps : String) (pinfo : Option TrackInfo)
    (rule : CategoryRuleConfig) (pc : PriorityConfig)
    (l : List (String × TrackMetadata)) :
    ∀ (acc : List CandidateRecord) (d : TrackDataset),
      l.foldl (fun (st : List CandidateRecord × TrackDataset) p =>
          let rc := _build_candidate_record_st p.1 p.2 pn ps pinfo st.2 rule pc
          (st.1 ++ [rc.1], rc.2)) (acc, d)
        = (l.foldl (fun x p =>
            x ++ [_build_candidate_record p.1 p.2 pn ps pinfo d rule pc]) acc, d) := by
  induction l with
  | nil => intro acc d; rfl
  | cons p rest ih =>
    intro acc d
    simp only [List.foldl_cons]
    exact ih _ _

theorem reason_fold_state (L : Int) (pn : Option Int) (ps : String)
    (rule : CategoryRuleConfig) (l : List CandidateRecord) :
    ∀ (acc : List Suggestion) (d : TrackDataset),
      l.foldl (fun (st : List Suggestion × TrackDataset) c =>
          let rs := _build_reason_st c L pn ps st.2 rule
          (st.1 ++ [(⟨c.name, rs.1⟩ : Suggestion)], rs.2)) (acc, d)
        = (l.foldl (fun x c =>
            x ++ [(⟨c.name, _build_reason c L pn ps d rule⟩ : Suggestion)]) acc, d) := by
  induction l with
  | nil => intro acc d; rfl
  | cons c rest ih =>
    intro acc d
    simp only [List.foldl_cons]
    exact ih _ _

/-- C9: select_tracks never mutates the tracks snapshot: the state-passing
translation returns the dataset unchanged, whether the call succeeds or
fails, and its result agrees with the direct translation. -/
theorem select_tracks_preserves_dataset (train_code : String)
    (train_length_m : Int) (train_category : Option String)
    (planned_track : Option String) (category_rule : Option CategoryRuleConfig)
    (priority_config : Option PriorityConfig) (tracks : TrackDataset) :
    (select_tracks_st train_code train_length_m train_category planned_track
      category_rule priority_config tracks).2 = tracks ∧
    (select_tracks_st train_code train_length_m train_category planned_track
      category_rule priority_config tracks).1
      = select_tracks train_code train_length_m train_category tracks
          planned_track category_rule priority_config := by
  have key : select_tracks_st train_code train_length_m train_category
      planned_track category_rule priority_config tracks
      = (select_tracks train_code train_length_m train_category tracks
          planned_track category_rule priority_config, tracks) := by
    by_cases hL : train_length_m ≤ 0
    · simp [select_tracks_st, select_tracks, hL]
    · rcases category_rule with _ | rule
      · simp [select_tracks_st, select_tracks, hL]
      · rcases priority_config with _ | pc
        · simp [select_tracks_st, select_tracks, hL]
        · simp only [select_tracks_st, select_tracks, if_neg hL,
            build_track_metadata_st_eq, resolve_st_eq]
          by_cases hmd : (_build_track_metadata tracks).isEmpty
          · simp [hmd]
          · simp only [hmd, Bool.false_eq_true, if_false]
            rw [cand_fold_state, foldl_append_eq_map, List.nil_append,
              reason_fold_state, foldl_append_eq_map, List.nil_append]
  exact ⟨by rw [key], by rw [key]⟩
